import Mathlib

/-!
Verification model of `src/main.py` (quizgen): a Flask service with one
pipeline endpoint `POST /generate` that builds a prompt, calls a text
generation API, brace-extracts and parses a JSON quiz from the raw model
text, formats it to plain text, and publishes it as a Google Doc.

The embedding is shallow: Python dicts/lists/strings/ints/bools/None become
the inductive `Json`; `json.loads` becomes the executable parser `loads`
(JSON numbers are modelled as integers only — no claim in scope touches
fractional or exponent literals, and under-acceptance only shrinks the set
of inputs a parsing-success hypothesis covers); exceptions become
`Except PyErr`; the two external services (Gemini generation, Google Docs
publishing) become oracles in `GenEnv`, and the handler records the calls
it makes to them as an event trace.
-/

/-- Python/JSON values as produced by `json.loads`: objects are association
lists in source order (a duplicated key is resolved by `dLookup`, which
takes the last binding, as Python dict construction does). -/
inductive Json where
  | null
  | bool (b : Bool)
  | num (n : Int)
  | str (s : String)
  | arr (elems : List Json)
  | obj (fields : List (String × Json))
deriving Repr

/-- Lookup in a parsed object: Python dict semantics, last binding wins. -/
def dLookup (kvs : List (String × Json)) (k : String) : Option Json :=
  (kvs.reverse.find? (fun p => p.1 == k)).map (fun p => p.2)

/-- Python `k in d` key-membership test on a parsed object. -/
def dHasKey (kvs : List (String × Json)) (k : String) : Bool :=
  kvs.any (fun p => p.1 == k)

mutual

/-- Python `repr` of a value, used for elements of composite values inside
f-strings; string quoting is simplified (no escaping inside the quotes),
which no theorem in this file depends on. -/
def pyRepr : Json → String
  | Json.null => "None"
  | Json.bool b => if b then "True" else "False"
  | Json.num n => toString n
  | Json.str s => "'" ++ s ++ "'"
  | Json.arr xs => "[" ++ String.intercalate ", " (pyReprElems xs) ++ "]"
  | Json.obj kvs =>
      "\x7b" ++ String.intercalate ", " (pyReprFields kvs) ++ "\x7d"

/-- `repr` of the elements of a list. -/
def pyReprElems : List Json → List String
  | [] => []
  | x :: xs => pyRepr x :: pyReprElems xs

/-- `repr` of the fields of a dict. -/
def pyReprFields : List (String × Json) → List String
  | [] => []
  | (k, v) :: kvs => ("'" ++ k ++ "': " ++ pyRepr v) :: pyReprFields kvs

end

/-- Python `str()` of a value, as interpolated by an f-string or
`str.format`: strings pass through verbatim, ints print in decimal. -/
def pyStr : Json → String
  | Json.str s => s
  | Json.null => "None"
  | Json.bool b => if b then "True" else "False"
  | Json.num n => toString n
  | Json.arr xs => pyRepr (Json.arr xs)
  | Json.obj kvs => pyRepr (Json.obj kvs)

/-- Digits of a Python int literal body (no sign). -/
def strDigitsToInt? (cs : List Char) : Option Nat :=
  match cs with
  | [] => none
  | _ =>
    if cs.all (fun c => c.isDigit) then
      some (cs.foldl (fun acc c => acc * 10 + (c.toNat - 48)) 0)
    else none

/-- Python `int(s)` on a string: optional surrounding whitespace, optional
sign, decimal digits (digit-group underscores are not modelled; no claim
uses them). Returns `none` where Python raises `ValueError`. -/
def pyIntOfString (s : String) : Option Int :=
  let cs := s.toList.dropWhile (fun c => c.isWhitespace)
  let cs := (cs.reverse.dropWhile (fun c => c.isWhitespace)).reverse
  match cs with
  | '-' :: rest => (strDigitsToInt? rest).map (fun n => -(n : Int))
  | '+' :: rest => (strDigitsToInt? rest).map (fun n => (n : Int))
  | _ => (strDigitsToInt? cs).map (fun n => (n : Int))

/-- Python `int(x)` coercion: ints pass through, bools map to 0/1, strings
parse as decimal; `None`, lists and dicts raise (`none` here). -/
def pyInt : Json → Option Int
  | Json.num n => some n
  | Json.bool b => some (if b then 1 else 0)
  | Json.str s => pyIntOfString s
  | _ => none

/-- JSON insignificant whitespace, as skipped by `json.loads`. -/
def jsonWs (c : Char) : Bool :=
  c == ' ' || c == '\t' || c == '\n' || c == '\r'

/-- Skip insignificant whitespace. -/
def skipWs (cs : List Char) : List Char :=
  cs.dropWhile jsonWs

/-- Hex digit value, for `\u` escapes. -/
def hexVal? (c : Char) : Option Nat :=
  if '0' ≤ c ∧ c ≤ '9' then some (c.toNat - 48)
  else if 'a' ≤ c ∧ c ≤ 'f' then some (c.toNat - 87)
  else if 'A' ≤ c ∧ c ≤ 'F' then some (c.toNat - 55)
  else none

/-- Unsigned JSON number body: `0`, or a nonzero digit followed by digits
(leading zeros rejected, as in the JSON grammar). -/
def parseNumBody (cs : List Char) : Option (Nat × List Char) :=
  match cs with
  | '0' :: rest => some (0, rest)
  | c :: _ =>
    if c.isDigit then
      let ds := cs.takeWhile (fun d => d.isDigit)
      let rest := cs.dropWhile (fun d => d.isDigit)
      match strDigitsToInt? ds with
      | some n => some (n, rest)
      | none => none
    else none
  | [] => none

mutual

/-- One JSON value, recursive descent with fuel; the fuel passed by `loads`
always suffices, and running out yields `none` (a parse failure), never a
wrong success. Mirrors `json.loads` except that numbers are integers only. -/
def parseVal : Nat → List Char → Option (Json × List Char)
  | 0, _ => none
  | fuel + 1, cs =>
    match skipWs cs with
    | [] => none
    | c :: rest =>
      if c == '\x7b' then
        match skipWs rest with
        | '\x7d' :: rest2 => some (Json.obj [], rest2)
        | rest2 =>
          match parseMembers fuel rest2 with
          | some (kvs, rest3) => some (Json.obj kvs, rest3)
          | none => none
      else if c == '[' then
        match skipWs rest with
        | ']' :: rest2 => some (Json.arr [], rest2)
        | rest2 =>
          match parseElems fuel rest2 with
          | some (xs, rest3) => some (Json.arr xs, rest3)
          | none => none
      else if c == '"' then
        match parseStringBody fuel rest with
        | some (s, rest2) => some (Json.str s, rest2)
        | none => none
      else
        match c :: rest with
        | 't' :: 'r' :: 'u' :: 'e' :: rest2 => some (Json.bool true, rest2)
        | 'f' :: 'a' :: 'l' :: 's' :: 'e' :: rest2 => some (Json.bool false, rest2)
        | 'n' :: 'u' :: 'l' :: 'l' :: rest2 => some (Json.null, rest2)
        | '-' :: rest2 =>
          match parseNumBody rest2 with
          | some (n, rest3) => some (Json.num (-(n : Int)), rest3)
          | none => none
        | cs2 =>
          match parseNumBody cs2 with
          | some (n, rest3) => some (Json.num (n : Int), rest3)
          | none => none

/-- Members of an object after its `\x7b` (first key expected next). -/
def parseMembers : Nat → List Char → Option (List (String × Json) × List Char)
  | 0, _ => none
  | fuel + 1, cs =>
    match skipWs cs with
    | '"' :: rest =>
      match parseStringBody fuel rest with
      | some (k, rest2) =>
        (match skipWs rest2 with
         | ':' :: rest3 =>
           match parseVal fuel rest3 with
           | some (v, rest4) =>
             (match skipWs rest4 with
              | ',' :: rest5 =>
                match parseMembers fuel rest5 with
                | some (kvs, rest6) => some ((k, v) :: kvs, rest6)
                | none => none
              | '\x7d' :: rest5 => some ([(k, v)], rest5)
              | _ => none)
           | none => none
         | _ => none)
      | none => none
    | _ => none

/-- Elements of an array after its `[` (first element expected next). -/
def parseElems : Nat → List Char → Option (List Json × List Char)
  | 0, _ => none
  | fuel + 1, cs =>
    match parseVal fuel cs with
    | some (v, rest) =>
      (match skipWs rest with
       | ',' :: rest2 =>
         match parseElems fuel rest2 with
         | some (xs, rest3) => some (v :: xs, rest3)
         | none => none
       | ']' :: rest2 => some ([v], rest2)
       | _ => none)
    | none => none

/-- Body of a string literal after its opening quote. Raw control
characters are rejected (as by `json.loads` in its default strict mode);
`\u` escapes outside the valid `Char` range collapse via `Char.ofNat`. -/
def parseStringBody : Nat → List Char → Option (String × List Char)
  | 0, _ => none
  | fuel + 1, cs =>
    match cs with
    | [] => none
    | '"' :: rest => some ("", rest)
    | '\\' :: rest =>
      (match rest with
       | 'u' :: h1 :: h2 :: h3 :: h4 :: rest2 =>
         (match hexVal? h1, hexVal? h2, hexVal? h3, hexVal? h4 with
          | some a, some b, some c, some d =>
            match parseStringBody fuel rest2 with
            | some (s, rest3) =>
              some (String.mk (Char.ofNat (((a * 16 + b) * 16 + c) * 16 + d) :: s.toList), rest3)
            | none => none
          | _, _, _, _ => none)
       | e :: rest2 =>
         let esc : Option Char :=
           if e == '"' then some '"'
           else if e == '\\' then some '\\'
           else if e == '/' then some '/'
           else if e == 'b' then some (Char.ofNat 8)
           else if e == 'f' then some (Char.ofNat 12)
           else if e == 'n' then some '\n'
           else if e == 'r' then some '\r'
           else if e == 't' then some '\t'
           else none
         match esc with
         | some ec =>
           (match parseStringBody fuel rest2 with
            | some (s, rest3) => some (String.mk (ec :: s.toList), rest3)
            | none => none)
         | none => none
       | [] => none)
    | c :: rest =>
      if c.toNat < 32 then none
      else
        match parseStringBody fuel rest with
        | some (s, rest2) => some (String.mk (c :: s.toList), rest2)
        | none => none

end

/-- `json.loads` on a character list: parse one value and require only
whitespace to remain (Python raises on trailing data). -/
def loadsChars (cs : List Char) : Option Json :=
  match parseVal (2 * cs.length + 8) cs with
  | some (v, rest) => if (skipWs rest).isEmpty then some v else none
  | none => none

/-- `json.loads` on a string. -/
def loads (s : String) : Option Json :=
  loadsChars s.toList


/-! ## Brace extraction (src/main.py lines 196-199)

`json_start = response.text.find('\x7b')`, `json_end =
response.text.rfind('\x7d') + 1`, `json_string =
response.text[json_start:json_end]`, with Python's `find`/`rfind`
returning -1 on absence and Python's slice semantics for negative and
out-of-range bounds. -/

/-- Python `str.find` restricted to a single-character needle: index of the
first occurrence, or -1. -/
def pyFind (cs : List Char) (c : Char) : Int :=
  match cs.findIdx? (fun x => x == c) with
  | some i => (i : Int)
  | none => -1

/-- Python `str.rfind` restricted to a single-character needle: index of
the last occurrence, or -1. -/
def pyRFind (cs : List Char) (c : Char) : Int :=
  match cs.reverse.findIdx? (fun x => x == c) with
  | some i => (cs.length : Int) - 1 - (i : Int)
  | none => -1

/-- Normalise one slice bound the way Python does: negative bounds count
from the end, then both ends clamp into `[0, len]`. -/
def pyBound (len : Nat) (i : Int) : Nat :=
  if i < 0 then
    (if i + (len : Int) < 0 then 0 else (i + (len : Int)).toNat)
  else min i.toNat len

/-- Python `cs[i:j]` (step 1). -/
def pySlice (cs : List Char) (i j : Int) : List Char :=
  (cs.take (pyBound cs.length j)).drop (pyBound cs.length i)

/-- The `json_string` the handler passes to `json.loads`: `json_start =
text.find('\x7b')`, `json_end = text.rfind('\x7d') + 1`, result
`text[json_start:json_end]`. -/
def extractJsonString (text : String) : String :=
  String.mk (pySlice text.toList (pyFind text.toList '\x7b') (pyRFind text.toList '\x7d' + 1))


/-! ## Python exceptions and dict/list primitives used by the formatter -/

/-- The exception kinds the handler can let escape. `unboundLocalError` is
the `UnboundLocalError` raised at src/main.py line 204, where the `except`
block's log line reads the local `response` that was never assigned when
`generate_content` itself raised. -/
inductive PyErr where
  | keyError (k : String)
  | typeError
  | attributeError
  | unboundLocalError
deriving Repr, DecidableEq

/-- Python `v[k]`: `KeyError` when the key is absent, `TypeError` when `v`
is not a dict. -/
def pyGetItem (v : Json) (k : String) : Except PyErr Json :=
  match v with
  | Json.obj kvs =>
    match dLookup kvs k with
    | some x => Except.ok x
    | none => Except.error (PyErr.keyError k)
  | _ => Except.error PyErr.typeError

/-- Python `v.get(k, dflt)`: only dicts have `.get`; anything else raises
`AttributeError`. -/
def pyGetDefault (v : Json) (k : String) (dflt : Json) : Except PyErr Json :=
  match v with
  | Json.obj kvs => Except.ok ((dLookup kvs k).getD dflt)
  | _ => Except.error PyErr.attributeError

/-- Python `k in v` for a dict receiver (the handler only evaluates it
after `v[...]` has already succeeded, so `v` is a dict there). -/
def pyHasKey (v : Json) (k : String) : Bool :=
  match v with
  | Json.obj kvs => dHasKey kvs k
  | _ => false

/-- Python iteration `for x in v`: lists yield elements, strings yield
their characters as 1-character strings, dicts yield their keys; numbers,
booleans and `None` raise `TypeError`. -/
def pyIter : Json → Except PyErr (List Json)
  | Json.arr xs => Except.ok xs
  | Json.str s => Except.ok (s.toList.map (fun c => Json.str (String.mk [c])))
  | Json.obj kvs => Except.ok (kvs.map (fun p => Json.str p.1))
  | _ => Except.error PyErr.typeError

/-- Python `v == lit` for a string literal `lit`: true only when `v` is an
equal string (a string never equals a non-string in Python). -/
def pyEqStr (v : Json) (s : String) : Bool :=
  match v with
  | Json.str t => t == s
  | _ => false

/-! ## Document formatter (src/main.py lines 207-222)

This code runs outside every `try`/`except` of the handler, so an error
value here propagates as an uncaught exception (a `crash` outcome). -/

/-- One quiz item:
`q_text = f"\x7bitem['id']\x7d. (\x7bitem['type']\x7d) \x7bitem['question']\x7d"`,
then options lines when `item['type'] == 'MC' and 'options' in item`,
then the trailing blank line. -/
def formatQuizItem (item : Json) : Except PyErr String := do
  let idv ← pyGetItem item "id"
  let tyv ← pyGetItem item "type"
  let qv ← pyGetItem item "question"
  let base := pyStr idv ++ ". (" ++ pyStr tyv ++ ") " ++ pyStr qv
  if pyEqStr tyv "MC" && pyHasKey item "options" then
    let ov ← pyGetItem item "options"
    let opts ← pyIter ov
    let optionsText := String.intercalate "\n" (opts.map (fun o => "    - " ++ pyStr o))
    pure (base ++ "\n" ++ optionsText ++ "\n\n")
  else
    pure (base ++ "\n\n")

/-- The `for item in quiz_data.get('quiz', [])` accumulation. -/
def formatQuizItems : List Json → Except PyErr String
  | [] => Except.ok ""
  | item :: rest => do
    let s ← formatQuizItem item
    let r ← formatQuizItems rest
    pure (s ++ r)

/-- One answer item: `f"\x7bitem['id']\x7d. \x7bitem['correct_answer']\x7d\n"`. -/
def formatAnswerItem (item : Json) : Except PyErr String := do
  let idv ← pyGetItem item "id"
  let cav ← pyGetItem item "correct_answer"
  pure (pyStr idv ++ ". " ++ pyStr cav ++ "\n")

/-- The `for item in quiz_data.get('answers', [])` accumulation. -/
def formatAnswerItems : List Json → Except PyErr String
  | [] => Except.ok ""
  | item :: rest => do
    let s ← formatAnswerItem item
    let r ← formatAnswerItems rest
    pure (s ++ r)

/-- Whole `doc_content` construction on the parsed `quiz_data`. -/
def formatDoc (quizData : Json) : Except PyErr String := do
  let qv ← pyGetDefault quizData "quiz" (Json.arr [])
  let qitems ← pyIter qv
  let questionsPart ← formatQuizItems qitems
  let av ← pyGetDefault quizData "answers" (Json.arr [])
  let aitems ← pyIter av
  let answersPart ← formatAnswerItems aitems
  pure ("Generated Quiz\n\n---\n" ++ "--- QUESTIONS ---\n" ++ questionsPart
        ++ "\n\n--- ANSWER KEY ---\n" ++ answersPart)

/-! ## Prompt builder (src/main.py lines 14-47 and 183-186)

`GEMINI_QUIZ_PROMPT.format(source_text=..., num_questions=...)`: the
template literal split at its two placeholders, with the doubled braces of
the JSON example already collapsed to single braces as `str.format` does. -/

/-- Template text before the `source_text` placeholder. -/
def GEMINI_QUIZ_PROMPT_pre : String :=
  "\nYou are an expert educational assessment creator. Your task is to generate a comprehensive quiz based on the provided text.\n\n**INSTRUCTIONS:**\n1. **Source Text:** Use ONLY the following text as the source material:\n   ---\n   "

/-- Template text between the `source_text` and `num_questions`
placeholders. -/
def GEMINI_QUIZ_PROMPT_mid : String :=
  "\n   ---\n2. **Question Count:** Generate exactly "

/-- Template text after the `num_questions` placeholder. -/
def GEMINI_QUIZ_PROMPT_post : String :=
  " questions.\n3. **Question Types:** Ensure a diverse mix of the following types: Multiple Choice (MC), True/False (TF), and Short Answer (SA).\n4. **Output Format:** You MUST return the output as a single, valid JSON object with two top-level keys: \"quiz\" and \"answers\". Do not include any text outside of the JSON object.\n\n**JSON STRUCTURE EXAMPLE:**\n\x7b\n    \"quiz\": [\n        \x7b\n            \"id\": 1,\n            \"type\": \"MC\",\n            \"question\": \"What is the primary function of the mitochondria?\",\n            \"options\": [\"To produce ATP\", \"To digest waste\", \"To hold the DNA\"] \n        \x7d,\n        // ... more questions\n    ],\n    \"answers\": [\n        \x7b\n            \"id\": 1,\n            \"correct_answer\": \"To produce ATP\"\n        \x7d,\n        // ... corresponding answers\n    ]\n\x7d\n\n**START GENERATION NOW.**\n"

/-- `GEMINI_QUIZ_PROMPT.format(source_text=st, num_questions=n)` for an
integer count (that is how the handler calls it: the count argument is
`min(num_questions, 20)`, an int, which `format` renders in decimal). -/
def formatPrompt (sourceText : String) (numQuestions : Int) : String :=
  GEMINI_QUIZ_PROMPT_pre ++ sourceText ++ GEMINI_QUIZ_PROMPT_mid
    ++ toString numQuestions ++ GEMINI_QUIZ_PROMPT_post

/-! ## Response messages, title, URL (src/main.py lines 173, 180, 205, 228, 231, 236, 239, 97) -/

/-- Error body when `gemini_client is None` (line 173). -/
def clientInitErrorMsg : String :=
  "Gemini Client not initialized. Check API Key configuration."

/-- Error body of the 400 response (line 180). -/
def invalidInputMsg : String := "Invalid input data."

/-- Error body when generation output cannot be parsed (line 205). -/
def malformedOutputMsg : String :=
  "Failed to generate structured quiz from AI. Try adjusting the source text."

/-- Error body for a Docs `HttpError` with the given status (line 236). -/
def docsHttpErrorMsg (status : Nat) : String :=
  "Failed to create Google Doc. Check Cloud Run permissions. Error: " ++ toString status

/-- Error body for any other exception during export (line 239). -/
def docsGeneralErrorMsg : String :=
  "An unexpected error occurred during Docs export."

/-- Document title: `f"AI Quiz - \x7bmin(num_questions, 20)\x7d Questions"`
(line 228). -/
def docTitle (numQuestions : Int) : String :=
  "AI Quiz - " ++ toString (min numQuestions 20) ++ " Questions"

/-- `f"https://docs.google.com/document/d/\x7bdoc_id\x7d/edit"` (line 97). -/
def docUrl (docId : String) : String :=
  "https://docs.google.com/document/d/" ++ docId ++ "/edit"

/-! ## Request input handling (src/main.py lines 175-180) -/

/-- The `try` block reading the request: `data = request.get_json()` (a
`none` body models `get_json` raising, e.g. an unparsable body), then
`source_text = data.get('source_text', '')` and `num_questions =
int(data.get('num_questions', 10))`. Any exception — non-dict body
(`AttributeError` on `.get`) or a `num_questions` that `int()` rejects —
lands in the `except` and is modelled as `none`, which the handler maps to
the 400 response. Note the defaults: a *missing* field does not fail. -/
def parseInput (body : Option Json) : Option (Json × Int) :=
  match body with
  | none => none
  | some (Json.obj kvs) =>
    let sourceText := (dLookup kvs "source_text").getD (Json.str "")
    match pyInt ((dLookup kvs "num_questions").getD (Json.num 10)) with
    | some n => some (sourceText, n)
    | none => none
  | some _ => none

/-! ## The /generate handler (src/main.py lines 169-239) -/

/-- Outcome of the Google Docs export as seen by the handler: the created
document's id, or one of the two caught exception classes (`HttpError`
carrying a status, or any other exception). -/
inductive PubErr where
  | httpError (status : Nat)
  | otherError
deriving Repr, DecidableEq

/-- Per-request environment: the module-level client state and the
behaviour of the two external services on this request. -/
structure GenEnv where
  clientOk : Bool
  body : Option Json
  genResult : Except Unit String
  publishResult : Except PubErr String

/-- Externally visible calls the handler makes, in order: the generation
request with the prompt it sends, and the Docs publish (service build,
document create, batch update) with the title and content it sends. -/
inductive Ev where
  | genCall (prompt : String)
  | publishCall (title : String) (content : String)
deriving Repr, DecidableEq

/-- What the request produces: an HTTP response with a JSON body, or an
uncaught exception escaping the handler (Flask then serves its default
500 HTML page, which has no JSON error field). -/
inductive Outcome where
  | response (status : Nat) (body : List (String × Json))
  | crash (e : PyErr)
deriving Repr

/-- The `/generate` handler, straight-line over the oracles, returning its
outcome and the ordered trace of external calls.

Mirrors src/main.py lines 169-239: the client check, the input `try`, the
prompt format with the count capped at 20, the generation call and JSON
extraction in one `try` (whose `except` *itself* raises
`UnboundLocalError` when the generation call failed, because its log line
reads `response` before assignment), the formatting outside any `try`,
and the publish `try` with its two `except` arms. -/
def generate (env : GenEnv) : Outcome × List Ev :=
  if env.clientOk = false then
    (Outcome.response 500 [("error", Json.str clientInitErrorMsg)], [])
  else
    match parseInput env.body with
    | none => (Outcome.response 400 [("error", Json.str invalidInputMsg)], [])
    | some (sourceText, numQuestions) =>
      let prompt := formatPrompt (pyStr sourceText) (min numQuestions 20)
      match env.genResult with
      | Except.error _ => (Outcome.crash PyErr.unboundLocalError, [Ev.genCall prompt])
      | Except.ok text =>
        match loads (extractJsonString text) with
        | none =>
          (Outcome.response 500 [("error", Json.str malformedOutputMsg)], [Ev.genCall prompt])
        | some quizData =>
          match formatDoc quizData with
          | Except.error e => (Outcome.crash e, [Ev.genCall prompt])
          | Except.ok content =>
            let title := docTitle numQuestions
            match env.publishResult with
            | Except.ok docId =>
              (Outcome.response 200
                 [("success", Json.bool true), ("doc_url", Json.str (docUrl docId))],
               [Ev.genCall prompt, Ev.publishCall title content])
            | Except.error (PubErr.httpError status) =>
              (Outcome.response 500 [("error", Json.str (docsHttpErrorMsg status))],
               [Ev.genCall prompt, Ev.publishCall title content])
            | Except.error PubErr.otherError =>
              (Outcome.response 500 [("error", Json.str docsGeneralErrorMsg)],
               [Ev.genCall prompt, Ev.publishCall title content])

/-! ## Lemmas about brace extraction on brace-free text -/

/-- A slice bound never exceeds the length. -/
theorem pyBound_le (len : Nat) (i : Int) : pyBound len i ≤ len := by
  unfold pyBound
  split
  · split
    · exact Nat.zero_le len
    · omega
  · exact min_le_right _ _

/-- On text with no opening brace, the extracted span is empty or the
single closing brace that ends the text: `find` returns -1, Python reads
`text[-1:j]` from the last character, and `j = rfind + 1` reaches past it
only when the text ends in a closing brace. -/
theorem extractJsonString_of_no_brace (text : String) (h : '\x7b' ∉ text.toList) :
    extractJsonString text = "" ∨ extractJsonString text = "\x7d" := by
  unfold extractJsonString pySlice
  have hfind : pyFind text.toList '\x7b' = -1 := by
    unfold pyFind
    have hnone : text.toList.findIdx? (fun x => x == '\x7b') = none := by
      rw [List.findIdx?_eq_none_iff]
      intro x hx
      rw [beq_eq_false_iff_ne]
      intro hxc
      exact h (hxc ▸ hx)
    rw [hnone]
  rcases Nat.eq_zero_or_pos text.toList.length with hn | hn
  · left
    have hnil : text.toList = [] := List.length_eq_zero.mp hn
    rw [hnil]
    simp
  · have ha : pyBound text.toList.length (pyFind text.toList '\x7b') =
        text.toList.length - 1 := by
      rw [hfind]
      unfold pyBound
      rw [if_pos (by norm_num)]
      rw [if_neg (by omega)]
      omega
    rcases Nat.lt_or_ge (pyBound text.toList.length (pyRFind text.toList '\x7d' + 1))
        text.toList.length with hlt | hge
    · left
      have hdrop : (text.toList.take
          (pyBound text.toList.length (pyRFind text.toList '\x7d' + 1))).drop
          (text.toList.length - 1) = [] := by
        apply List.drop_eq_nil_of_le
        rw [List.length_take]
        omega
      rw [ha, hdrop]
    · right
      have hbn : pyBound text.toList.length (pyRFind text.toList '\x7d' + 1) =
          text.toList.length :=
        le_antisymm (pyBound_le _ _) hge
      rcases hridx : text.toList.reverse.findIdx? (fun x => x == '\x7d') with _ | i
      · exfalso
        have hr : pyRFind text.toList '\x7d' = -1 := by
          unfold pyRFind
          rw [hridx]
        have hb0 : pyBound text.toList.length (pyRFind text.toList '\x7d' + 1) = 0 := by
          rw [hr]
          unfold pyBound
          simp
        omega
      · obtain ⟨hi_lt, hp, -⟩ := List.findIdx?_eq_some_iff_getElem.mp hridx
        rw [List.length_reverse] at hi_lt
        have hr : pyRFind text.toList '\x7d' =
            (text.toList.length : Int) - 1 - (i : Int) := by
          unfold pyRFind
          rw [hridx]
        have hb_eq : pyBound text.toList.length (pyRFind text.toList '\x7d' + 1) =
            text.toList.length - i := by
          rw [hr]
          unfold pyBound
          rw [if_neg (by omega)]
          omega
        have hi0 : i = 0 := by omega
        subst hi0
        have hbound : text.toList.length - 1 < text.toList.length := by omega
        have hlast : text.toList[text.toList.length - 1] = '\x7d' := by
          have hrev := List.getElem_reverse (l := text.toList) (i := 0)
            (by rw [List.length_reverse]; omega)
          simp only [Nat.sub_zero] at hrev
          rw [hrev] at hp
          exact eq_of_beq hp
        have htake : text.toList.take
            (pyBound text.toList.length (pyRFind text.toList '\x7d' + 1)) =
            text.toList := by
          rw [hbn, List.take_length]
        rw [ha, htake]
        rw [List.drop_eq_getElem_cons hbound]
        rw [hlast]
        have hd : text.toList.drop (text.toList.length - 1 + 1) = [] := by
          apply List.drop_eq_nil_of_le
          omega
        rw [hd]

/-- Neither possible extraction of brace-free text parses as JSON. -/
theorem loads_extract_of_no_brace (text : String) (h : '\x7b' ∉ text.toList) :
    loads (extractJsonString text) = none := by
  rcases extractJsonString_of_no_brace text h with he | he <;> rw [he] <;> rfl

/-! ## Shared concrete values for claim instances -/

/-- The `doc_content` produced when both the quiz and the answers sequence
are empty. -/
def emptyDocContent : String :=
  "Generated Quiz\n\n---\n--- QUESTIONS ---\n\n\n--- ANSWER KEY ---\n"

/-! ## C6 -/

/-- C6: on the raw model text `"Here is the quiz:
\x7b\"quiz\":[],\"answers\":[]\x7d thanks"`, the extractor takes the span
from the first brace to the last closing brace inclusive, and parsing it
yields the object whose "quiz" and "answers" are both empty sequences. -/
theorem c6_extractor_empty_quiz :
    extractJsonString "Here is the quiz: \x7b\"quiz\":[],\"answers\":[]\x7d thanks" =
      "\x7b\"quiz\":[],\"answers\":[]\x7d"
    ∧ loads (extractJsonString "Here is the quiz: \x7b\"quiz\":[],\"answers\":[]\x7d thanks") =
      some (Json.obj [("quiz", Json.arr []), ("answers", Json.arr [])]) :=
  ⟨rfl, rfl⟩

/-! ## C9 -/

/-- C9: when the Gemini client failed to initialize at process start
(`gemini_client is None`), every request gets the immediate 500 error
response and no external call — no generation, no parsing, no publishing —
is made. -/
theorem c9_uninitialized_client (env : GenEnv) (h : env.clientOk = false) :
    generate env = (Outcome.response 500 [("error", Json.str clientInitErrorMsg)], []) := by
  unfold generate
  rw [h]
  simp

/-- C9 witness: a concrete request against an uninitialized client. -/
theorem c9_witness :
    generate { clientOk := false
             , body := some (Json.obj [("source_text", Json.str "abc"),
                                       ("num_questions", Json.num 5)])
             , genResult := Except.ok "\x7b\"quiz\":[],\"answers\":[]\x7d"
             , publishResult := Except.ok "doc-w9" } =
      (Outcome.response 500 [("error", Json.str clientInitErrorMsg)], []) :=
  c9_uninitialized_client _ rfl

/-! ## C4 -/

/-- C4: whenever the pipeline is reached (client up, input accepted) and
the model's raw text contains no opening brace, extraction and parsing
fail and the request ends in the 500 malformed-output error response — the
publisher is never called, so no success response is possible. -/
theorem c4_no_brace_malformed_500 (env : GenEnv) (st : Json) (n : Int) (text : String)
    (hclient : env.clientOk = true)
    (hin : parseInput env.body = some (st, n))
    (hgen : env.genResult = Except.ok text)
    (hnob : '\x7b' ∉ text.toList) :
    generate env =
      (Outcome.response 500 [("error", Json.str malformedOutputMsg)],
       [Ev.genCall (formatPrompt (pyStr st) (min n 20))]) := by
  have hl := loads_extract_of_no_brace text hnob
  unfold generate
  rw [hclient]
  simp [hin, hgen, hl]

/-- C4 witness: a concrete model reply without any brace. -/
theorem c4_witness :
    '\x7b' ∉ "Sorry, I cannot produce a quiz for this text.".toList
    ∧ generate { clientOk := true
               , body := some (Json.obj [])
               , genResult := Except.ok "Sorry, I cannot produce a quiz for this text."
               , publishResult := Except.ok "doc-w4" } =
        (Outcome.response 500 [("error", Json.str malformedOutputMsg)],
         [Ev.genCall (formatPrompt (pyStr (Json.str "")) (min (10 : Int) 20))]) :=
  ⟨by decide,
   c4_no_brace_malformed_500 _ (Json.str "") 10
     "Sorry, I cannot produce a quiz for this text." rfl rfl rfl (by decide)⟩

/-! ## C2 -/

/-- A request whose JSON body is the empty object: both required fields are
missing. -/
def c2Env : GenEnv :=
  { clientOk := true
  , body := some (Json.obj [])
  , genResult := Except.ok "\x7b\"quiz\":[],\"answers\":[]\x7d"
  , publishResult := Except.ok "doc-c2" }

/-- C2 counterexample: a body missing both `source_text` and
`num_questions` is not rejected with 400 — the handler defaults them to
`""` and `10`, calls the generation service and publishes, answering 200. -/
theorem c2_counterexample :
    dLookup [] "source_text" = none
    ∧ dLookup [] "num_questions" = none
    ∧ generate c2Env =
        (Outcome.response 200
           [("success", Json.bool true), ("doc_url", Json.str (docUrl "doc-c2"))],
         [Ev.genCall (formatPrompt "" 10),
          Ev.publishCall (docTitle 10) emptyDocContent]) :=
  ⟨rfl, rfl, rfl⟩

/-- C2 amended: 400 with the error body — and no generation or publish
call — exactly when reading the input raises (unparsable body, non-object
body, or a `num_questions` that `int()` rejects); a merely *missing* field
instead falls back to its default (`''`, `10`) and the pipeline proceeds. -/
theorem c2_bad_input_400_else_defaults (env : GenEnv) (hclient : env.clientOk = true) :
    (parseInput env.body = none →
      generate env = (Outcome.response 400 [("error", Json.str invalidInputMsg)], []))
    ∧ (∀ kvs, env.body = some (Json.obj kvs) →
        dLookup kvs "source_text" = none → dLookup kvs "num_questions" = none →
        parseInput env.body = some (Json.str "", 10)) := by
  constructor
  · intro hnone
    unfold generate
    rw [hclient]
    simp [hnone]
  · intro kvs hb hs hn
    simp [parseInput, hb, hs, hn, pyInt]

/-- C2 witness: an unparsable body gets the 400 and makes no external
call. -/
theorem c2_witness :
    generate { clientOk := true
             , body := none
             , genResult := Except.ok "\x7b\"quiz\":[],\"answers\":[]\x7d"
             , publishResult := Except.ok "doc-w2" } =
      (Outcome.response 400 [("error", Json.str invalidInputMsg)], []) :=
  (c2_bad_input_400_else_defaults _ rfl).1 rfl

/-! ## C1 -/

/-- A request whose model reply parses as a JSON object that has neither a
"quiz" nor an "answers" key. -/
def c1Env : GenEnv :=
  { clientOk := true
  , body := some (Json.obj [("source_text", Json.str "some source"),
                            ("num_questions", Json.num 5)])
  , genResult := Except.ok "\x7b\"title\": \"x\"\x7d"
  , publishResult := Except.ok "doc-c1" }

/-- C1 counterexample: the extracted span parses as an object lacking both
"quiz" and "answers", yet the pipeline does not fail — `.get(key, [])`
defaults both to empty lists, the document is published, and the response
is 200. -/
theorem c1_counterexample :
    loads (extractJsonString "\x7b\"title\": \"x\"\x7d") =
      some (Json.obj [("title", Json.str "x")])
    ∧ dLookup [("title", Json.str "x")] "quiz" = none
    ∧ dLookup [("title", Json.str "x")] "answers" = none
    ∧ generate c1Env =
        (Outcome.response 200
           [("success", Json.bool true), ("doc_url", Json.str (docUrl "doc-c1"))],
         [Ev.genCall (formatPrompt "some source" 5),
          Ev.publishCall (docTitle 5) emptyDocContent]) :=
  ⟨rfl, rfl, rfl, rfl⟩

/-- C1 amended: when the extracted span parses as an object with neither
key, the missing keys default to empty sequences, the formatter succeeds
with the empty-quiz document, the publisher *is* invoked with it, and a
successful publish yields the 200 success response — no
MalformedGenerationOutput error occurs. -/
theorem c1_missing_keys_still_published (env : GenEnv) (st : Json) (n : Int)
    (text : String) (kvs : List (String × Json))
    (hclient : env.clientOk = true)
    (hin : parseInput env.body = some (st, n))
    (hgen : env.genResult = Except.ok text)
    (hparse : loads (extractJsonString text) = some (Json.obj kvs))
    (hq : dLookup kvs "quiz" = none)
    (ha : dLookup kvs "answers" = none) :
    formatDoc (Json.obj kvs) = Except.ok emptyDocContent
    ∧ (generate env).2 = [Ev.genCall (formatPrompt (pyStr st) (min n 20)),
                          Ev.publishCall (docTitle n) emptyDocContent]
    ∧ (∀ docId, env.publishResult = Except.ok docId →
        (generate env).1 = Outcome.response 200
          [("success", Json.bool true), ("doc_url", Json.str (docUrl docId))]) := by
  have hfd : formatDoc (Json.obj kvs) = Except.ok emptyDocContent := by
    simp only [formatDoc, pyGetDefault, hq, ha]
    rfl
  refine ⟨hfd, ?_, ?_⟩
  · unfold generate
    rw [hclient]
    rcases hpub : env.publishResult with e | docId
    · cases e <;> simp [hin, hgen, hparse, hfd, hpub]
    · simp [hin, hgen, hparse, hfd, hpub]
  · intro docId hpub
    unfold generate
    rw [hclient]
    simp [hin, hgen, hparse, hfd, hpub]

/-- C1 witness: the counterexample environment, through the amended
theorem. -/
theorem c1_witness :
    (generate c1Env).2 = [Ev.genCall (formatPrompt (pyStr (Json.str "some source")) (min (5 : Int) 20)),
                          Ev.publishCall (docTitle 5) emptyDocContent] :=
  (c1_missing_keys_still_published c1Env (Json.str "some source") 5
    "\x7b\"title\": \"x\"\x7d" [("title", Json.str "x")]
    rfl rfl rfl rfl rfl rfl).2.1

/-! ## C5 -/

/-- C5: when the generation call raises, the handler's own `except` block
crashes before it can return the 500 JSON error — its log line evaluates
`response.text[:500] if response else 'N/A'`, and `response` is an
unassigned local, so `UnboundLocalError` escapes the handler (Flask then
serves its default 500 page with no JSON error field). The Document
Publisher is never invoked: the trace holds only the generation attempt. -/
theorem c5_generation_error_uncaught (env : GenEnv) (st : Json) (n : Int)
    (hclient : env.clientOk = true)
    (hin : parseInput env.body = some (st, n))
    (hgen : env.genResult = Except.error ()) :
    generate env = (Outcome.crash PyErr.unboundLocalError,
                    [Ev.genCall (formatPrompt (pyStr st) (min n 20))]) := by
  unfold generate
  rw [hclient]
  simp [hin, hgen]

/-- C5 witness: a concrete request whose generation call raises. -/
theorem c5_witness :
    generate { clientOk := true
             , body := some (Json.obj [("source_text", Json.str "some notes"),
                                       ("num_questions", Json.num 5)])
             , genResult := Except.error ()
             , publishResult := Except.ok "doc-w5" } =
      (Outcome.crash PyErr.unboundLocalError,
       [Ev.genCall (formatPrompt (pyStr (Json.str "some notes")) (min (5 : Int) 20))]) :=
  c5_generation_error_uncaught _ (Json.str "some notes") 5 rfl rfl rfl

/-! ## C3 -/

/-- C3: the handler uses `min(num_questions, 20)` both for the prompt and
for the document title. Above 20 the clamped value 20 reaches both; below
1 the raw value passes through to both unchanged — there is no lower
bound. Stated over the trace: whatever the oracles do, any generation call
carries the clamped prompt, and any publish call carries the clamped
title. -/
theorem c3_clamp_above_passthrough_below :
    (∀ (env : GenEnv) (st : Json) (n : Int),
      parseInput env.body = some (st, n) → 20 < n →
        (∀ p, Ev.genCall p ∈ (generate env).2 → p = formatPrompt (pyStr st) 20)
        ∧ (∀ t c, Ev.publishCall t c ∈ (generate env).2 → t = "AI Quiz - 20 Questions"))
    ∧ (∀ (env : GenEnv) (st : Json) (n : Int),
      parseInput env.body = some (st, n) → n < 1 →
        (∀ p, Ev.genCall p ∈ (generate env).2 → p = formatPrompt (pyStr st) n)
        ∧ (∀ t c, Ev.publishCall t c ∈ (generate env).2 →
            t = "AI Quiz - " ++ toString n ++ " Questions")) := by
  have trace_shape : ∀ (env : GenEnv) (st : Json) (n : Int),
      parseInput env.body = some (st, n) →
      (∀ p, Ev.genCall p ∈ (generate env).2 → p = formatPrompt (pyStr st) (min n 20))
      ∧ (∀ t c, Ev.publishCall t c ∈ (generate env).2 → t = docTitle n) := by
    intro env st n hin
    unfold generate
    rcases hc : env.clientOk with _ | _
    · simp
    · rcases hg : env.genResult with u | text
      · simp [hin, hg]
      · rcases hl : loads (extractJsonString text) with _ | quizData
        · simp [hin, hg, hl]
        · rcases hf : formatDoc quizData with e | content
          · simp [hin, hg, hl, hf]
          · rcases hpub : env.publishResult with e | docId
            · cases e <;> simp [hin, hg, hl, hf, hpub]
            · simp [hin, hg, hl, hf, hpub]
  constructor
  · intro env st n hin hgt
    have h20 : min n 20 = 20 := min_eq_right (le_of_lt hgt)
    have := trace_shape env st n hin
    rw [h20] at this
    refine ⟨this.1, fun t c hmem => ?_⟩
    have ht := this.2 t c hmem
    rw [ht]
    unfold docTitle
    rw [h20]
    rfl
  · intro env st n hin hlt
    have hn : min n 20 = n := min_eq_left (by omega)
    have := trace_shape env st n hin
    rw [hn] at this
    refine ⟨this.1, fun t c hmem => ?_⟩
    have ht := this.2 t c hmem
    rw [ht]
    unfold docTitle
    rw [hn]

/-- C3 witness: one request asking for 25 questions (clamped to 20 in
prompt and title) and one asking for -3 (passed through to both). -/
theorem c3_witness :
    ((∀ p, Ev.genCall p ∈
        (generate { clientOk := true
                  , body := some (Json.obj [("source_text", Json.str "big text"),
                                            ("num_questions", Json.num 25)])
                  , genResult := Except.ok "\x7b\"quiz\":[],\"answers\":[]\x7d"
                  , publishResult := Except.ok "doc-w3a" }).2 →
        p = formatPrompt (pyStr (Json.str "big text")) 20)
     ∧ (∀ t c, Ev.publishCall t c ∈
        (generate { clientOk := true
                  , body := some (Json.obj [("source_text", Json.str "big text"),
                                            ("num_questions", Json.num 25)])
                  , genResult := Except.ok "\x7b\"quiz\":[],\"answers\":[]\x7d"
                  , publishResult := Except.ok "doc-w3a" }).2 →
        t = "AI Quiz - 20 Questions"))
    ∧ ((∀ p, Ev.genCall p ∈
        (generate { clientOk := true
                  , body := some (Json.obj [("source_text", Json.str "tiny"),
                                            ("num_questions", Json.num (-3))])
                  , genResult := Except.ok "\x7b\"quiz\":[],\"answers\":[]\x7d"
                  , publishResult := Except.ok "doc-w3b" }).2 →
        p = formatPrompt (pyStr (Json.str "tiny")) (-3))
     ∧ (∀ t c, Ev.publishCall t c ∈
        (generate { clientOk := true
                  , body := some (Json.obj [("source_text", Json.str "tiny"),
                                            ("num_questions", Json.num (-3))])
                  , genResult := Except.ok "\x7b\"quiz\":[],\"answers\":[]\x7d"
                  , publishResult := Except.ok "doc-w3b" }).2 →
        t = "AI Quiz - " ++ toString (-3 : Int) ++ " Questions")) :=
  ⟨c3_clamp_above_passthrough_below.1 _ (Json.str "big text") 25 rfl (by norm_num),
   c3_clamp_above_passthrough_below.2 _ (Json.str "tiny") (-3) rfl (by norm_num)⟩

/-! ## C8 -/

/-- C8: for counts in [1,20] the clamp is the identity, and the prompt the
handler builds carries the source text verbatim and the count in decimal:
the formatted template is literally `pre ++ source_text ++ mid ++
toString n ++ post`. -/
theorem c8_prompt_contains_source_and_count (st : String) (n : Int)
    (h1 : 1 ≤ n) (h2 : n ≤ 20) :
    formatPrompt st (min n 20) = formatPrompt st n
    ∧ st.toList <:+: (formatPrompt st n).toList
    ∧ (toString n).toList <:+: (formatPrompt st n).toList := by
  have hn : min n 20 = n := min_eq_left h2
  refine ⟨by rw [hn], ?_, ?_⟩
  · refine ⟨GEMINI_QUIZ_PROMPT_pre.toList,
      (GEMINI_QUIZ_PROMPT_mid ++ toString n ++ GEMINI_QUIZ_PROMPT_post).toList, ?_⟩
    unfold formatPrompt
    simp [String.toList, String.data_append]
  · refine ⟨(GEMINI_QUIZ_PROMPT_pre ++ st ++ GEMINI_QUIZ_PROMPT_mid).toList,
      GEMINI_QUIZ_PROMPT_post.toList, ?_⟩
    unfold formatPrompt
    simp [String.toList, String.data_append]

/-- C8 witness: a concrete source text and count. -/
theorem c8_witness :
    formatPrompt "photosynthesis notes" (min (7 : Int) 20) = formatPrompt "photosynthesis notes" 7
    ∧ "photosynthesis notes".toList <:+: (formatPrompt "photosynthesis notes" 7).toList
    ∧ (toString (7 : Int)).toList <:+: (formatPrompt "photosynthesis notes" 7).toList :=
  c8_prompt_contains_source_and_count "photosynthesis notes" 7 (by norm_num) (by norm_num)

/-! ## C10 -/

/-- A parsed quiz item that the formatter's f-string would fault on: an
object missing "id", "type" or "question". -/
def badQuizItem (item : Json) : Prop :=
  ∃ kvs, item = Json.obj kvs ∧
    (dLookup kvs "id" = none ∨ dLookup kvs "type" = none ∨ dLookup kvs "question" = none)

/-- A parsed answer item missing "id" or "correct_answer". -/
def badAnswerItem (item : Json) : Prop :=
  ∃ kvs, item = Json.obj kvs ∧
    (dLookup kvs "id" = none ∨ dLookup kvs "correct_answer" = none)

/-- A bad quiz item makes the per-item formatter raise. -/
theorem formatQuizItem_error_of_bad (item : Json) (hbad : badQuizItem item) :
    ∃ e, formatQuizItem item = Except.error e := by
  obtain ⟨kvs, rfl, hmiss⟩ := hbad
  rcases hid : dLookup kvs "id" with _ | idv
  · exact ⟨PyErr.keyError "id",
      by simp [formatQuizItem, pyGetItem, hid, Bind.bind, Except.bind]⟩
  · rcases hty : dLookup kvs "type" with _ | tyv
    · exact ⟨PyErr.keyError "type",
        by simp [formatQuizItem, pyGetItem, hid, hty, Bind.bind, Except.bind]⟩
    · rcases hqu : dLookup kvs "question" with _ | qv
      · exact ⟨PyErr.keyError "question",
          by simp [formatQuizItem, pyGetItem, hid, hty, hqu, Bind.bind, Except.bind]⟩
      · exfalso
        rcases hmiss with h | h | h
        · rw [h] at hid; exact Option.noConfusion hid
        · rw [h] at hty; exact Option.noConfusion hty
        · rw [h] at hqu; exact Option.noConfusion hqu

/-- A bad quiz item anywhere in the list makes the quiz loop raise. -/
theorem formatQuizItems_error_of_mem (items : List Json) (item : Json)
    (hmem : item ∈ items) (hbad : badQuizItem item) :
    ∃ e, formatQuizItems items = Except.error e := by
  induction items with
  | nil => cases hmem
  | cons a rest ih =>
    rcases List.mem_cons.mp hmem with rfl | hmem'
    · obtain ⟨e, he⟩ := formatQuizItem_error_of_bad _ hbad
      exact ⟨e, by simp [formatQuizItems, he, Bind.bind, Except.bind]⟩
    · rcases hfa : formatQuizItem a with e | s
      · exact ⟨e, by simp [formatQuizItems, hfa, Bind.bind, Except.bind]⟩
      · obtain ⟨e, he⟩ := ih hmem'
        exact ⟨e, by simp [formatQuizItems, hfa, he, Bind.bind, Except.bind]⟩

/-- A bad answer item makes the per-answer formatter raise. -/
theorem formatAnswerItem_error_of_bad (item : Json) (hbad : badAnswerItem item) :
    ∃ e, formatAnswerItem item = Except.error e := by
  obtain ⟨kvs, rfl, hmiss⟩ := hbad
  rcases hid : dLookup kvs "id" with _ | idv
  · exact ⟨PyErr.keyError "id",
      by simp [formatAnswerItem, pyGetItem, hid, Bind.bind, Except.bind]⟩
  · rcases hca : dLookup kvs "correct_answer" with _ | cav
    · exact ⟨PyErr.keyError "correct_answer",
        by simp [formatAnswerItem, pyGetItem, hid, hca, Bind.bind, Except.bind]⟩
    · exfalso
      rcases hmiss with h | h
      · rw [h] at hid; exact Option.noConfusion hid
      · rw [h] at hca; exact Option.noConfusion hca

/-- A bad answer item anywhere in the list makes the answers loop raise. -/
theorem formatAnswerItems_error_of_mem (items : List Json) (item : Json)
    (hmem : item ∈ items) (hbad : badAnswerItem item) :
    ∃ e, formatAnswerItems items = Except.error e := by
  induction items with
  | nil => cases hmem
  | cons a rest ih =>
    rcases List.mem_cons.mp hmem with rfl | hmem'
    · obtain ⟨e, he⟩ := formatAnswerItem_error_of_bad _ hbad
      exact ⟨e, by simp [formatAnswerItems, he, Bind.bind, Except.bind]⟩
    · rcases hfa : formatAnswerItem a with e | s
      · exact ⟨e, by simp [formatAnswerItems, hfa, Bind.bind, Except.bind]⟩
      · obtain ⟨e, he⟩ := ih hmem'
        exact ⟨e, by simp [formatAnswerItems, hfa, he, Bind.bind, Except.bind]⟩

/-- Formatting the whole document raises when either sequence holds a bad
item. -/
theorem formatDoc_error_of_bad (kvs : List (String × Json))
    (hbad : (∃ items, dLookup kvs "quiz" = some (Json.arr items)
              ∧ ∃ item ∈ items, badQuizItem item)
          ∨ (∃ items, dLookup kvs "answers" = some (Json.arr items)
              ∧ ∃ item ∈ items, badAnswerItem item)) :
    ∃ e, formatDoc (Json.obj kvs) = Except.error e := by
  rcases hbad with ⟨items, hq, item, hmem, hbaditem⟩ | ⟨items, ha, item, hmem, hbaditem⟩
  · obtain ⟨e, he⟩ := formatQuizItems_error_of_mem items item hmem hbaditem
    exact ⟨e, by simp [formatDoc, pyGetDefault, hq, pyIter, he, Bind.bind, Except.bind]⟩
  · obtain ⟨e, he⟩ := formatAnswerItems_error_of_mem items item hmem hbaditem
    rcases hqi : pyIter ((dLookup kvs "quiz").getD (Json.arr [])) with e' | qitems
    · exact ⟨e', by simp [formatDoc, pyGetDefault, hqi, Bind.bind, Except.bind]⟩
    · rcases hfq : formatQuizItems qitems with e' | qpart
      · exact ⟨e', by simp [formatDoc, pyGetDefault, hqi, hfq, Bind.bind, Except.bind]⟩
      · exact ⟨e, by
          simp only [formatDoc, pyGetDefault, Bind.bind, Except.bind, hqi, hfq]
          simp [ha, pyIter, he]⟩

/-- C10: when the parsed quiz_data's "quiz" list holds an item missing
"id", "type" or "question" — or its "answers" list holds one missing "id"
or "correct_answer" — the formatting step (which runs outside every
`try`/`except`) raises, the handler crashes without any JSON error
envelope, and the publisher is never called. -/
theorem c10_missing_item_keys_crash (env : GenEnv) (st : Json) (n : Int)
    (text : String) (kvs : List (String × Json))
    (hclient : env.clientOk = true)
    (hin : parseInput env.body = some (st, n))
    (hgen : env.genResult = Except.ok text)
    (hparse : loads (extractJsonString text) = some (Json.obj kvs))
    (hbad : (∃ items, dLookup kvs "quiz" = some (Json.arr items)
              ∧ ∃ item ∈ items, badQuizItem item)
          ∨ (∃ items, dLookup kvs "answers" = some (Json.arr items)
              ∧ ∃ item ∈ items, badAnswerItem item)) :
    ∃ e, generate env =
      (Outcome.crash e, [Ev.genCall (formatPrompt (pyStr st) (min n 20))]) := by
  obtain ⟨e, he⟩ := formatDoc_error_of_bad kvs hbad
  refine ⟨e, ?_⟩
  unfold generate
  rw [hclient]
  simp [hin, hgen, hparse, he]

/-- C10 witness: a model reply whose only quiz item is `\x7b"id": 1\x7d`
— no "type", no "question". -/
theorem c10_witness :
    ∃ e, generate
        { clientOk := true
        , body := some (Json.obj [("source_text", Json.str "abc"),
                                  ("num_questions", Json.num 3)])
        , genResult := Except.ok "\x7b\"quiz\":[\x7b\"id\":1\x7d],\"answers\":[]\x7d"
        , publishResult := Except.ok "doc-w10" } =
      (Outcome.crash e, [Ev.genCall (formatPrompt (pyStr (Json.str "abc")) (min (3 : Int) 20))]) :=
  c10_missing_item_keys_crash _ (Json.str "abc") 3
    "\x7b\"quiz\":[\x7b\"id\":1\x7d],\"answers\":[]\x7d"
    [("quiz", Json.arr [Json.obj [("id", Json.num 1)]]), ("answers", Json.arr [])]
    rfl rfl rfl rfl
    (Or.inl ⟨[Json.obj [("id", Json.num 1)]], rfl,
      Json.obj [("id", Json.num 1)], List.mem_singleton.mpr rfl,
      ⟨[("id", Json.num 1)], rfl, Or.inr (Or.inl rfl)⟩⟩)

/-! ## C7 -/

/-- Data model (spec §3): one quiz question; `options` is present only for
multiple-choice items that carry one. -/
structure QuizItem where
  id : Int
  type : String
  question : String
  options : Option (List String)

/-- Data model (spec §3): one answer-key entry. -/
structure AnswerItem where
  id : Int
  correct_answer : String

/-- Data model (spec §3): the parsed quiz+answers document. -/
structure QuizDocument where
  quiz : List QuizItem
  answers : List AnswerItem

/-- The Python dict a structurally valid quiz item denotes — the "options"
key exists exactly when the item carries an options list. -/
def QuizItem.toJson (i : QuizItem) : Json :=
  Json.obj ([("id", Json.num i.id), ("type", Json.str i.type),
             ("question", Json.str i.question)]
    ++ (match i.options with
        | some opts => [("options", Json.arr (opts.map Json.str))]
        | none => []))

/-- The Python dict a structurally valid answer item denotes. -/
def AnswerItem.toJson (a : AnswerItem) : Json :=
  Json.obj [("id", Json.num a.id), ("correct_answer", Json.str a.correct_answer)]

/-- The parsed `quiz_data` dict a QuizDocument denotes. -/
def QuizDocument.toJson (d : QuizDocument) : Json :=
  Json.obj [("quiz", Json.arr (d.quiz.map QuizItem.toJson)),
            ("answers", Json.arr (d.answers.map AnswerItem.toJson))]

/-- Concatenation of a list of blocks, in sequence order. -/
def strConcat : List String → String
  | [] => ""
  | s :: rest => s ++ strConcat rest

/-- Question entry as the spec words it: `"<id>. (<type>) <question>"`,
followed — only for items of type MC that carry an options list — by each
option on its own line prefixed with the marker `"    - "`, then the blank
line separating entries. -/
def specQuestionBlock (i : QuizItem) : String :=
  toString i.id ++ ". (" ++ i.type ++ ") " ++ i.question
    ++ (match i.options with
        | some opts =>
          if i.type == "MC" then
            "\n" ++ String.intercalate "\n" (opts.map (fun o => "    - " ++ o))
          else ""
        | none => "")
    ++ "\n\n"

/-- Answer entry as the spec words it: `"<id>. <correct_answer>"`, one per
line. -/
def specAnswerLine (a : AnswerItem) : String :=
  toString a.id ++ ". " ++ a.correct_answer ++ "\n"

/-- Document layout as the spec words it: the QUESTIONS section first,
then the ANSWER KEY section, each listing its items in input-sequence
order (no re-sorting by id). -/
def specFormatDoc (d : QuizDocument) : String :=
  "Generated Quiz\n\n---\n--- QUESTIONS ---\n"
    ++ strConcat (d.quiz.map specQuestionBlock)
    ++ "\n\n--- ANSWER KEY ---\n"
    ++ strConcat (d.answers.map specAnswerLine)

/-- f-string rendering of a parsed string is the string itself. -/
theorem pyStr_str (s : String) : pyStr (Json.str s) = s := rfl

/-- f-string rendering of a parsed integer is its decimal form. -/
theorem pyStr_num (n : Int) : pyStr (Json.num n) = toString n := rfl

/-- The code's per-item formatting agrees with the spec-side block. -/
theorem formatQuizItem_toJson (i : QuizItem) :
    formatQuizItem i.toJson = Except.ok (specQuestionBlock i) := by
  rcases ho : i.options with _ | opts
  · simp [formatQuizItem, QuizItem.toJson, specQuestionBlock, ho, pyGetItem, dLookup,
      pyEqStr, pyHasKey, dHasKey, pyIter, pyStr_str, pyStr_num, Bind.bind, Except.bind,
      Pure.pure, Except.pure, String.append_assoc]
  · cases hMC : i.type == "MC"
    · simp [formatQuizItem, QuizItem.toJson, specQuestionBlock, ho, hMC, pyGetItem,
        dLookup, pyEqStr, pyHasKey, dHasKey, pyIter, pyStr_str, pyStr_num, Bind.bind,
        Except.bind, Pure.pure, Except.pure, String.append_assoc]
    · simp [formatQuizItem, QuizItem.toJson, specQuestionBlock, ho, hMC, pyGetItem,
        dLookup, pyEqStr, pyHasKey, dHasKey, pyIter, pyStr_str, pyStr_num, Bind.bind,
        Except.bind, Pure.pure, Except.pure, List.map_map, Function.comp,
        Function.comp_def, String.append_assoc]

/-- The code's quiz loop agrees with the concatenated spec-side blocks. -/
theorem formatQuizItems_map_toJson (l : List QuizItem) :
    formatQuizItems (l.map QuizItem.toJson) =
      Except.ok (strConcat (l.map specQuestionBlock)) := by
  induction l with
  | nil => rfl
  | cons a rest ih =>
    simp [formatQuizItems, formatQuizItem_toJson, ih, strConcat, Bind.bind, Except.bind,
      Pure.pure, Except.pure]

/-- The code's per-answer formatting agrees with the spec-side line. -/
theorem formatAnswerItem_toJson (a : AnswerItem) :
    formatAnswerItem a.toJson = Except.ok (specAnswerLine a) := by
  simp [formatAnswerItem, AnswerItem.toJson, specAnswerLine, pyGetItem, dLookup,
    pyStr_str, pyStr_num, Bind.bind, Except.bind, Pure.pure, Except.pure,
    String.append_assoc]

/-- The code's answers loop agrees with the concatenated spec-side lines. -/
theorem formatAnswerItems_map_toJson (l : List AnswerItem) :
    formatAnswerItems (l.map AnswerItem.toJson) =
      Except.ok (strConcat (l.map specAnswerLine)) := by
  induction l with
  | nil => rfl
  | cons a rest ih =>
    simp [formatAnswerItems, formatAnswerItem_toJson, ih, strConcat, Bind.bind, Except.bind,
      Pure.pure, Except.pure]

/-- C7: on every structurally valid QuizDocument the formatter succeeds
and produces exactly the spec's layout: a QUESTIONS section listing each
item as `"<id>. (<type>) <question>"` with marker-prefixed option lines
only for MC items carrying options, then an ANSWER KEY section listing
each answer as `"<id>. <correct_answer>"`, both in input order. -/
theorem c7_formatter_layout (d : QuizDocument) :
    formatDoc d.toJson = Except.ok (specFormatDoc d) := by
  simp [formatDoc, QuizDocument.toJson, specFormatDoc, pyGetDefault, dLookup, pyIter,
    formatQuizItems_map_toJson, formatAnswerItems_map_toJson, Bind.bind, Except.bind,
    Pure.pure, Except.pure, String.append_assoc]
